import Mathlib

set_option maxRecDepth 8000

/-!
# Verification of the hexagony authentication flow and user repository

A shallow embedding of the Go sources:
* `app/auth/usecase/usecase.go` — the `Authenticate` use case and its private
  `generateToken` helper,
* `app/users/repository/mariadb/repository.go` — the MariaDB user repository
  (`FindAll`, `FindByID`, `Update`, `Delete`),
together with a translation of Go's `time.ParseDuration` (stdlib), which
`Authenticate` calls.

Modelling conventions:
* A Go `(value, error)` pair return is modelled as a Lean product whose second
  component is `Option GoErr` (`none` = the Go `nil` error).  A nil pointer is
  `Option.none` in the first component.
* Injected collaborators and process-wide state read by the use case (the
  `AuthRepository`, the bcrypt checker from `lib/crypto`, the `JWT_DURATION`
  and `JWT_SECRET` environment variables, the wall clock, and the JWT
  signing/serialisation primitive) are collected in a `World` record; the use
  case is a pure function of a `World`.
* `uuid.UUID` values are modelled as opaque `String`s (the code never inspects
  them); the zero `UUID` is modelled as `""`.
* Go `time.Duration` is an `int64` count of nanoseconds; durations and
  timestamps are modelled as `Int`, with the two's-complement wrap of the
  64-bit multiplication made explicit via `int64wrap`.
* Go slices are modelled as `List` (a nil slice is `[]`).
-/

deriving instance DecidableEq for Except

namespace Hexagony

/-- Go `error` values that appear in the modelled code.  `simple` covers
`errors.New` values (including arbitrary errors produced by the injected
repository); `durationParse` tags the error returned by `time.ParseDuration`
(identified in Go by its message prefix); `errEmptyClaim` / `errSign` are the
`authDomain.ErrEmptyClaim` / `authDomain.ErrSign` sentinels; `sqlNoRows` is
`sql.ErrNoRows`; `resourceNotFound` is `domain.ErrResourceNotFound`. -/
inductive GoErr where
  | simple (msg : String)
  | durationParse (msg : String)
  | errEmptyClaim
  | errSign
  | sqlNoRows
  | resourceNotFound
  deriving DecidableEq, Repr

/-- `users/domain.User` restricted to the fields the modelled code reads or
writes (`UUID`, `Name`, `Email`, `Password`, `CreatedAt`, `UpdatedAt`). -/
structure DomainUser where
  uuid : String
  name : String
  email : String
  password : String
  createdAt : Int
  updatedAt : Int
  deriving DecidableEq, Repr

/-- The zero value of `domain.User` (`var user domain.User`): all string
fields empty, timestamps zero, the zero UUID (modelled `""`). -/
def zeroUser : DomainUser :=
  { uuid := "", name := "", email := "", password := "", createdAt := 0, updatedAt := 0 }

/-- `authDomain.AuthToken`: the result object wrapping the signed token. -/
structure AuthToken where
  token : String
  deriving DecidableEq, Repr

/-- `jwt.RegisteredClaims` restricted to the fields `generateToken` sets.
`expiresAt` is the `ExpiresAt` timestamp in nanoseconds. -/
structure RegisteredClaims where
  issuer : String
  subject : String
  audience : List String
  expiresAt : Int
  deriving DecidableEq, Repr

/-- The anonymous claims struct built by `generateToken`: embedded
`jwt.RegisteredClaims` plus the identity fields `id`, `name`, `email`. -/
structure TokenClaims where
  registered : RegisteredClaims
  uuid : String
  name : String
  email : String
  deriving DecidableEq, Repr

/-! ## Go `time.ParseDuration`

A translation of Go's `time.ParseDuration` (stdlib `time/format.go`), which
`Authenticate` calls on the configured lifetime string.  Deviations: the
fractional part is accumulated with exact integer arithmetic
(`f * unit / scale`) where Go uses a `float64` product, and Go's `quote`
helper is modelled as plain double-quoting without escaping; neither affects
which inputs parse successfully. -/

/-- Go's `quote` helper from the `time` package (escaping omitted). -/
def quoteGo (s : String) : String := "\"" ++ s ++ "\""

/-- The `time: invalid duration` error message. -/
def invalidDur (orig : String) : String :=
  "time: invalid duration " ++ quoteGo orig

/-- Go `leadingInt`: consume `[0-9]*`, returning the value and the rest;
`none` on overflow past `1<<63`. -/
def leadingInt : List Char → Nat → Option (Nat × List Char)
  | [], x => some (x, [])
  | c :: rest, x =>
    if c < '0' ∨ '9' < c then some (x, c :: rest)
    else if x > 2 ^ 63 / 10 then none
    else
      let x1 := x * 10 + (c.toNat - '0'.toNat)
      if x1 > 2 ^ 63 then none
      else leadingInt rest x1

/-- Go `leadingFraction`: consume `[0-9]*` after a decimal point, returning
the value, the scale (a power of ten), and the rest; on overflow the
remaining digits are consumed without effect. -/
def leadingFraction : List Char → Nat → Nat → Bool → Nat × Nat × List Char
  | [], x, scale, _ => (x, scale, [])
  | c :: rest, x, scale, overflow =>
    if c < '0' ∨ '9' < c then (x, scale, c :: rest)
    else if overflow then leadingFraction rest x scale overflow
    else if x > (2 ^ 63 - 1) / 10 then leadingFraction rest x scale true
    else
      let y := x * 10 + (c.toNat - '0'.toNat)
      if y > 2 ^ 63 then leadingFraction rest x scale true
      else leadingFraction rest y (scale * 10) overflow

/-- Go's `unitMap`: nanoseconds per duration unit. -/
def unitMap (u : String) : Option Nat :=
  if u = "ns" then some 1
  else if u = "us" then some 1000
  else if u = "µs" then some 1000
  else if u = "μs" then some 1000
  else if u = "ms" then some 1000000
  else if u = "s" then some 1000000000
  else if u = "m" then some 60000000000
  else if u = "h" then some 3600000000000
  else none

/-- A character terminates a unit when it is a digit or a decimal point. -/
def isDigitOrDot (c : Char) : Bool := c = '.' ∨ ('0' ≤ c ∧ c ≤ '9')

/-- The main loop of Go `ParseDuration`: repeatedly consume
`[0-9]*(\.[0-9]*)?unit` and accumulate nanoseconds in `d`.  The `fuel`
argument bounds the recursion; every loop iteration of the Go original
consumes at least one character, so `fuel = length + 1` never runs out. -/
def durLoop (orig : String) : Nat → List Char → Nat → Except String Nat
  | _, [], d => Except.ok d
  | 0, _, _ => Except.error (invalidDur orig)
  | fuel + 1, s, d =>
    if ¬ (isDigitOrDot (s.headD ' ')) then Except.error (invalidDur orig)
    else
      match leadingInt s 0 with
      | none => Except.error (invalidDur orig)
      | some (v, s1) =>
        let pre : Bool := s1.length ≠ s.length
        let fss : Nat × Nat × List Char × Bool :=
          match s1 with
          | '.' :: rest =>
            let fs := leadingFraction rest 0 1 false
            (fs.1, fs.2.1, fs.2.2, fs.2.2.length ≠ rest.length)
          | _ => (0, 1, s1, false)
        let f := fss.1
        let scale := fss.2.1
        let s2 := fss.2.2.1
        let post := fss.2.2.2
        if ¬ pre ∧ ¬ post then Except.error (invalidDur orig)
        else
          let unitChars := s2.takeWhile (fun c => ¬ isDigitOrDot c)
          let s3 := s2.dropWhile (fun c => ¬ isDigitOrDot c)
          if unitChars.isEmpty then
            Except.error ("time: missing unit in duration " ++ quoteGo orig)
          else
            match unitMap (String.mk unitChars) with
            | none =>
              Except.error ("time: unknown unit " ++ quoteGo (String.mk unitChars) ++
                " in duration " ++ quoteGo orig)
            | some unit =>
              if v > 2 ^ 63 / unit then Except.error (invalidDur orig)
              else
                let v1 := v * unit
                let v2 := if f > 0 then v1 + f * unit / scale else v1
                if f > 0 ∧ v2 > 2 ^ 63 then Except.error (invalidDur orig)
                else
                  if d + v2 > 2 ^ 63 then Except.error (invalidDur orig)
                  else durLoop orig fuel s3 (d + v2)

/-- Go `time.ParseDuration`: parse `[-+]?([0-9]*(\.[0-9]*)?[a-z]+)+` into a
signed nanosecond count. -/
def ParseDuration (s : String) : Except String Int :=
  let orig := s
  let signAndRest : Bool × List Char :=
    match s.data with
    | '-' :: r => (true, r)
    | '+' :: r => (false, r)
    | r => (false, r)
  let neg := signAndRest.1
  let cs := signAndRest.2
  if cs = ['0'] then Except.ok 0
  else if cs = [] then Except.error (invalidDur orig)
  else
    match durLoop orig (cs.length + 1) cs 0 with
    | Except.error e => Except.error e
    | Except.ok d =>
      if neg then Except.ok (-(d : Int))
      else if d > 2 ^ 63 - 1 then Except.error (invalidDur orig)
      else Except.ok (d : Int)

/-! ## The authentication use case -/

/-- Two's-complement wrap of an integer into the `int64` range, as Go's
signed 64-bit multiplication does. -/
def int64wrap (x : Int) : Int := (x + 2 ^ 63) % 2 ^ 64 - 2 ^ 63

/-- `time.Minute` in nanoseconds. -/
def minuteNs : Int := 60000000000

/-- The collaborators and process-wide state the use case reads:
`authRepo.Authenticate`, `crypto.New().CheckPasswordHash`, the
`JWT_DURATION` and `JWT_SECRET` environment variables, `time.Now()` (in
nanoseconds), and the jwt library's `SignedString` on the claims struct
(abstracted: its argument records exactly the claims being signed). -/
structure World where
  repoAuthenticate : String → Except GoErr DomainUser
  checkPasswordHash : String → String → Bool
  jwtDurationEnv : String
  jwtSecretEnv : String
  nowNs : Int
  signedString : TokenClaims → String → Except String String

/-- `authUseCase.generateToken`: precondition check, claims construction,
signing.  Returns the Go pair `(string, error)`. -/
def generateToken (w : World) (claimKey : String) (claimValue : Option DomainUser)
    (expiration : Int) : String × Option GoErr :=
  if claimKey == "" || claimValue.isNone then ("", some GoErr.errEmptyClaim)
  else
    match claimValue with
    | none => ("", some GoErr.errEmptyClaim)
    | some cv =>
      let signingKey := w.jwtSecretEnv
      let claims : TokenClaims :=
        { registered :=
            { issuer := "Hexagony"
              subject := "https://github.com/cyruzin/hexagony"
              audience := ["Clean Architecture"]
              expiresAt := expiration }
          uuid := cv.uuid
          name := cv.name
          email := cv.email }
      match w.signedString claims signingKey with
      | Except.error _ => ("", some GoErr.errSign)
      | Except.ok payload => (payload, none)

/-- `authUseCase.Authenticate`: lookup, password check, duration
configuration, expiration computation, token issuance.  Returns the Go pair
`(*AuthToken, error)`.  Note the source's
`expiration := time.Duration(time.Minute * duration)`: `duration` is already
a `time.Duration`, so the product is a second scaling by `time.Minute`,
wrapped to `int64`. -/
def Authenticate (w : World) (email password : String) : Option AuthToken × Option GoErr :=
  match w.repoAuthenticate email with
  | Except.error err => (none, some err)
  | Except.ok user =>
    if !(w.checkPasswordHash password user.password) then
      (none, some (GoErr.simple "authentication failed"))
    else
      let customClaims : DomainUser :=
        { uuid := user.uuid, name := user.name, email := user.email
          password := "", createdAt := 0, updatedAt := 0 }
      let jwtDuration0 := w.jwtDurationEnv
      let jwtDuration := if jwtDuration0 == "" then "60m" else jwtDuration0
      match ParseDuration jwtDuration with
      | Except.error msg => (none, some (GoErr.durationParse msg))
      | Except.ok duration =>
        let expiration := int64wrap (minuteNs * duration)
        let tokenExpiration := w.nowNs + expiration
        match generateToken w "user" (some customClaims) tokenExpiration with
        | (_, some err) => (none, some err)
        | (token, none) => (some { token := token }, none)

/-! ## The MariaDB user repository

The database calls (`SelectContext`, `GetContext`, `ExecContext`,
`Result.RowsAffected`) are external; each repository method is modelled as a
function of the outcome of its database call. -/

/-- `mariadbRepository.FindAll`: `var users []*domain.User` (nil slice), then
`SelectContext`; a non-`sql.ErrNoRows` error is returned, otherwise the
slice and a nil error. -/
def FindAll (selectResult : Except GoErr (List DomainUser)) :
    List DomainUser × Option GoErr :=
  match selectResult with
  | Except.error e => if e = GoErr.sqlNoRows then ([], none) else ([], some e)
  | Except.ok users => (users, none)

/-- `mariadbRepository.FindByID`: `var user domain.User` (zero value), then
`GetContext`; a non-`sql.ErrNoRows` error is returned with a nil pointer,
otherwise `&user` (zero-valued when no row was scanned) and a nil error. -/
def FindByID (getResult : Except GoErr DomainUser) :
    Option DomainUser × Option GoErr :=
  match getResult with
  | Except.error e =>
    if e = GoErr.sqlNoRows then (some zeroUser, none) else (none, some e)
  | Except.ok user => (some user, none)

/-- The `sql.Result` returned by `ExecContext`: its `RowsAffected` query may
itself fail. -/
structure SqlResult where
  rowsAffected : Except GoErr Int
  deriving DecidableEq, Repr

/-- `mariadbRepository.Update`: execute, query rows affected, and return
`domain.ErrResourceNotFound` when zero rows were affected. -/
def Update (execResult : Except GoErr SqlResult) : Option GoErr :=
  match execResult with
  | Except.error e => some e
  | Except.ok result =>
    match result.rowsAffected with
    | Except.error e => some e
    | Except.ok n => if n = 0 then some GoErr.resourceNotFound else none

/-- `mariadbRepository.Delete`: execute, query rows affected, and return
`domain.ErrResourceNotFound` when zero rows were affected. -/
def Delete (execResult : Except GoErr SqlResult) : Option GoErr :=
  match execResult with
  | Except.error e => some e
  | Except.ok result =>
    match result.rowsAffected with
    | Except.error e => some e
    | Except.ok n => if n = 0 then some GoErr.resourceNotFound else none

/-! ## Concrete worlds used to instantiate the theorems -/

/-- A sample stored credential record. -/
def uAna : DomainUser :=
  { uuid := "user-1", name := "Ana", email := "ana@example.com",
    password := "hash-of-correctpw", createdAt := 10, updatedAt := 20 }

/-- A world in which the repository knows `ana@example.com` with password
`correctpw`, `JWT_DURATION` is unset, and the signer succeeds. -/
def wOk : World :=
  { repoAuthenticate := fun e =>
      if e == "ana@example.com" then Except.ok uAna
      else Except.error (GoErr.simple "sql: no rows in result set")
    checkPasswordHash := fun p h => p == "correctpw" && h == "hash-of-correctpw"
    jwtDurationEnv := ""
    jwtSecretEnv := "topsecret"
    nowNs := 1700000000000000000
    signedString := fun c _ => Except.ok ("signed:" ++ c.name) }

/-- `wOk` with a malformed `JWT_DURATION` value. -/
def wBadDur : World :=
  { wOk with jwtDurationEnv := "sixty" }

/-- `wOk` with `nowNs = 0` and a signer that reveals the expiration it was
asked to sign, so the issued token exhibits the expiration timestamp. -/
def wExpProbe : World :=
  { wOk with
    nowNs := 0
    signedString := fun c _ => Except.ok (toString c.registered.expiresAt) }

/-! ## Helper lemmas -/

/-- `generateToken` either fails with `ErrEmptyClaim`, fails with `ErrSign`
(both with an empty payload), or returns a nil error. -/
theorem generateToken_cases (w : World) (k : String) (cv : Option DomainUser) (e : Int) :
    generateToken w k cv e = ("", some GoErr.errEmptyClaim) ∨
    generateToken w k cv e = ("", some GoErr.errSign) ∨
    (generateToken w k cv e).2 = none := by
  unfold generateToken
  split
  · exact Or.inl rfl
  · split
    · exact Or.inl rfl
    · dsimp only
      split
      · exact Or.inr (Or.inl rfl)
      · exact Or.inr (Or.inr rfl)

/-- When the lookup returns a record and the password check passes,
`Authenticate` reduces to the duration/expiration/issuance tail of the
function body. -/
theorem authenticate_ok_reduction (w : World) (email password : String)
    (user : DomainUser)
    (h1 : w.repoAuthenticate email = Except.ok user)
    (h2 : w.checkPasswordHash password user.password = true) :
    Authenticate w email password =
      match ParseDuration (if w.jwtDurationEnv == "" then "60m" else w.jwtDurationEnv) with
      | Except.error msg => (none, some (GoErr.durationParse msg))
      | Except.ok duration =>
        match generateToken w "user"
            (some { uuid := user.uuid, name := user.name, email := user.email,
                    password := "", createdAt := 0, updatedAt := 0 })
            (w.nowNs + int64wrap (minuteNs * duration)) with
        | (_, some err) => (none, some err)
        | (token, none) => (some { token := token }, none) := by
  unfold Authenticate
  rw [h1]
  simp [h2]

/-- A non-nil error returned by `generateToken` is `ErrEmptyClaim` or
`ErrSign`. -/
theorem generateToken_err_shape (w : World) (k : String) (cv : Option DomainUser)
    (e : Int) (p : String) (err : GoErr)
    (h : generateToken w k cv e = (p, some err)) :
    err = GoErr.errEmptyClaim ∨ err = GoErr.errSign := by
  rcases generateToken_cases w k cv e with hc | hc | hc
  · rw [h] at hc
    simp only [Prod.mk.injEq, Option.some.injEq] at hc
    exact Or.inl hc.2
  · rw [h] at hc
    simp only [Prod.mk.injEq, Option.some.injEq] at hc
    exact Or.inr hc.2
  · rw [h] at hc
    simp at hc

/-! ## Claims -/

/-- Claim C2: for every identifier whose stored record is returned by the
repository and every supplied password that fails the hash check,
`Authenticate` returns a nil token and the generic
`errors.New("authentication failed")` error. -/
theorem authenticate_wrong_password (w : World) (email password : String)
    (user : DomainUser)
    (h1 : w.repoAuthenticate email = Except.ok user)
    (h2 : w.checkPasswordHash password user.password = false) :
    Authenticate w email password = (none, some (GoErr.simple "authentication failed")) := by
  unfold Authenticate
  rw [h1]
  simp [h2]

/-- Witness for C2: in `wOk`, the wrong password yields exactly the generic
authentication failure and no token. -/
theorem authenticate_wrong_password_witness :
    Authenticate wOk "ana@example.com" "wrongpw" =
      (none, some (GoErr.simple "authentication failed")) :=
  authenticate_wrong_password wOk "ana@example.com" "wrongpw" uAna (by decide) (by decide)

/-- Claim C3: `Authenticate` never returns a token unless the lookup
succeeded and the supplied password matched the stored hash. -/
theorem authenticate_token_requires_match (w : World) (email password : String)
    (t : AuthToken)
    (h : (Authenticate w email password).1 = some t) :
    ∃ user, w.repoAuthenticate email = Except.ok user ∧
      w.checkPasswordHash password user.password = true := by
  unfold Authenticate at h
  cases hrepo : w.repoAuthenticate email with
  | error e => rw [hrepo] at h; simp at h
  | ok user =>
    rw [hrepo] at h
    refine ⟨user, rfl, ?_⟩
    cases hc : w.checkPasswordHash password user.password with
    | true => rfl
    | false => simp [hc] at h

/-- Witness for C3: in `wOk`, the correct password does produce a token, and
the theorem recovers the record and the successful hash check. -/
theorem authenticate_token_requires_match_witness :
    ∃ user, wOk.repoAuthenticate "ana@example.com" = Except.ok user ∧
      wOk.checkPasswordHash "correctpw" user.password = true :=
  authenticate_token_requires_match wOk "ana@example.com" "correctpw"
    { token := "signed:Ana" } (by decide)

/-- Claim C4: every call to `Authenticate` returns either a non-nil token
with a nil error or a nil token with a non-nil error. -/
theorem authenticate_result_exclusive (w : World) (email password : String) :
    ((Authenticate w email password).1.isSome = true ∧
      (Authenticate w email password).2 = none) ∨
    ((Authenticate w email password).1 = none ∧
      (Authenticate w email password).2.isSome = true) := by
  unfold Authenticate
  split
  · exact Or.inr ⟨rfl, rfl⟩
  · split
    · exact Or.inr ⟨rfl, rfl⟩
    · dsimp only
      split
      · exact Or.inr ⟨rfl, rfl⟩
      · split
        · exact Or.inr ⟨rfl, rfl⟩
        · exact Or.inl ⟨rfl, rfl⟩

/-- Claim C5: when the credential lookup fails, `Authenticate` returns the
lookup's error value unchanged, with a nil token. -/
theorem authenticate_propagates_lookup_error (w : World) (email password : String)
    (e : GoErr)
    (h : w.repoAuthenticate email = Except.error e) :
    Authenticate w email password = (none, some e) := by
  unfold Authenticate
  rw [h]

/-- Witness for C5: in `wOk`, an unknown identifier's repository error is
returned verbatim. -/
theorem authenticate_propagates_lookup_error_witness :
    Authenticate wOk "bob@example.com" "pw" =
      (none, some (GoErr.simple "sql: no rows in result set")) :=
  authenticate_propagates_lookup_error wOk "bob@example.com" "pw"
    (GoErr.simple "sql: no rows in result set") (by decide)

/-- Claim C6: `generateToken` with a blank claim key or an absent claims
object fails with `ErrEmptyClaim` and returns an empty string. -/
theorem generateToken_empty_claim (w : World) (k : String) (cv : Option DomainUser)
    (e : Int)
    (h : k = "" ∨ cv = none) :
    generateToken w k cv e = ("", some GoErr.errEmptyClaim) := by
  unfold generateToken
  rcases h with h | h <;> simp [h]

/-- Witness for C6: a blank claim key in `wOk` yields `ErrEmptyClaim` and no
signed string. -/
theorem generateToken_empty_claim_witness :
    generateToken wOk "" (some uAna) 0 = ("", some GoErr.errEmptyClaim) :=
  generateToken_empty_claim wOk "" (some uAna) 0 (Or.inl rfl)

/-- Claim C7: every successfully issued token signs exactly the claims set
consisting of the fixed issuer, subject and audience constants, the
caller-supplied expiration, and the identity fields (id, name, email) of the
supplied record; within `Authenticate`, those identity fields are the ones of
the record fetched by the lookup. -/
theorem generateToken_claims_content :
    (∀ (w : World) (k : String) (u : DomainUser) (e : Int) (s : String),
      generateToken w k (some u) e = (s, none) →
      w.signedString
        { registered :=
            { issuer := "Hexagony"
              subject := "https://github.com/cyruzin/hexagony"
              audience := ["Clean Architecture"]
              expiresAt := e }
          uuid := u.uuid, name := u.name, email := u.email } w.jwtSecretEnv =
        Except.ok s) ∧
    (∀ (w : World) (email password : String) (user : DomainUser) (t : AuthToken),
      w.repoAuthenticate email = Except.ok user →
      Authenticate w email password = (some t, none) →
      ∃ expNs,
        w.signedString
          { registered :=
              { issuer := "Hexagony"
                subject := "https://github.com/cyruzin/hexagony"
                audience := ["Clean Architecture"]
                expiresAt := expNs }
            uuid := user.uuid, name := user.name, email := user.email } w.jwtSecretEnv =
          Except.ok t.token) := by
  have base : ∀ (w : World) (k : String) (u : DomainUser) (e : Int) (s : String),
      generateToken w k (some u) e = (s, none) →
      w.signedString
        { registered :=
            { issuer := "Hexagony"
              subject := "https://github.com/cyruzin/hexagony"
              audience := ["Clean Architecture"]
              expiresAt := e }
          uuid := u.uuid, name := u.name, email := u.email } w.jwtSecretEnv =
        Except.ok s := by
    intro w k u e s h
    unfold generateToken at h
    split at h
    · simp at h
    · dsimp only at h
      split at h
      · simp at h
      · rename_i payload heq
        simp only [Prod.mk.injEq] at h
        rw [h.1] at heq
        exact heq
  refine ⟨base, ?_⟩
  intro w email password user t hrepo hA
  cases hc : w.checkPasswordHash password user.password with
  | false =>
    exfalso
    unfold Authenticate at hA
    rw [hrepo] at hA
    simp [hc] at hA
  | true =>
    rw [authenticate_ok_reduction w email password user hrepo hc] at hA
    split at hA
    · simp at hA
    · split at hA
      · simp at hA
      · rename_i token heq
        have ht : t = { token := token } := by
          simp only [Prod.mk.injEq, Option.some.injEq] at hA
          exact hA.1.symm
        exact ⟨_, by rw [ht]; exact base w "user" _ _ token heq⟩

/-- Witness for C7: a successful issuance in `wOk` signs the fixed
issuer/subject/audience constants, the caller-supplied expiration, and
`uAna`'s identity fields. -/
theorem generateToken_claims_content_witness :
    wOk.signedString
      { registered :=
          { issuer := "Hexagony"
            subject := "https://github.com/cyruzin/hexagony"
            audience := ["Clean Architecture"]
            expiresAt := 5 }
        uuid := uAna.uuid, name := uAna.name, email := uAna.email } wOk.jwtSecretEnv =
      Except.ok "signed:Ana" :=
  generateToken_claims_content.1 wOk "user" uAna 5 "signed:Ana" (by decide)

/-- Claim C8: after a successful lookup and password check, `Authenticate`
fails with the duration parse error exactly when `JWT_DURATION` is present
but malformed; the empty value falls back to `"60m"`, which parses to 60
minutes, so no parse error is possible then. -/
theorem authenticate_duration_parse_error_iff (w : World) (email password : String)
    (user : DomainUser)
    (h1 : w.repoAuthenticate email = Except.ok user)
    (h2 : w.checkPasswordHash password user.password = true) :
    ((∃ m, (Authenticate w email password).2 = some (GoErr.durationParse m)) ↔
      w.jwtDurationEnv ≠ "" ∧ ∃ m, ParseDuration w.jwtDurationEnv = Except.error m) ∧
    ParseDuration "60m" = Except.ok 3600000000000 := by
  have h60 : ParseDuration "60m" = Except.ok 3600000000000 := by decide
  have hred := authenticate_ok_reduction w email password user h1 h2
  refine ⟨⟨?_, ?_⟩, h60⟩
  · rintro ⟨m, hm⟩
    rw [hred] at hm
    by_cases henv : w.jwtDurationEnv = ""
    · exfalso
      simp only [henv, beq_self_eq_true, if_true, h60] at hm
      split at hm
      · rename_i p err heq
        simp only [Option.some.injEq] at hm
        rcases generateToken_err_shape _ _ _ _ _ _ heq with he | he <;>
          rw [hm] at he <;> simp at he
      · simp at hm
    · have hcond : (w.jwtDurationEnv == "") = false := beq_eq_false_iff_ne.mpr henv
      rw [hcond] at hm
      simp only [Bool.false_eq_true, if_false] at hm
      split at hm
      · rename_i msg heq
        simp only [Option.some.injEq, GoErr.durationParse.injEq] at hm
        exact ⟨henv, msg, heq⟩
      · rename_i duration heq
        split at hm
        · rename_i p err hgen
          simp only [Option.some.injEq] at hm
          rcases generateToken_err_shape _ _ _ _ _ _ hgen with he | he <;>
            rw [hm] at he <;> simp at he
        · simp at hm
  · rintro ⟨henv, m, hp⟩
    have hcond : (w.jwtDurationEnv == "") = false := beq_eq_false_iff_ne.mpr henv
    refine ⟨m, ?_⟩
    rw [hred, hcond]
    simp only [Bool.false_eq_true, if_false, hp]

/-- Witness for C8: with the malformed value `"sixty"` configured, the parse
error occurs, and the iff certifies both sides. -/
theorem authenticate_duration_parse_error_iff_witness :
    ((∃ m, (Authenticate wBadDur "ana@example.com" "correctpw").2 =
        some (GoErr.durationParse m)) ↔
      wBadDur.jwtDurationEnv ≠ "" ∧
        ∃ m, ParseDuration wBadDur.jwtDurationEnv = Except.error m) ∧
    ParseDuration "60m" = Except.ok 3600000000000 :=
  authenticate_duration_parse_error_iff wBadDur "ana@example.com" "correctpw" uAna
    (by decide) (by decide)

/-- Claim C1 (code bug): with `JWT_DURATION` unset, the default `"60m"`
parses to 3600000000000 ns, but the source then computes
`time.Duration(time.Minute * duration)` on the already-parsed duration, so
the offset added to the issuance time is the `int64` wrap of
60000000000 * 3600000000000, namely 7073640934860128256 ns (about 224
years) — not the 60-minute window the specification states.  `wExpProbe`
issues at time 0 with a signer that reveals the expiration it signs. -/
theorem authenticate_default_duration_not_60min :
    Authenticate wExpProbe "ana@example.com" "correctpw" =
      (some { token := "7073640934860128256" }, none) ∧
    ParseDuration "60m" = Except.ok 3600000000000 ∧
    int64wrap (minuteNs * 3600000000000) = 7073640934860128256 ∧
    (7073640934860128256 : Int) ≠ 3600000000000 := by
  refine ⟨by decide, by decide, by decide, by decide⟩

/-- Claim C9: the data-access layer swallows "no matching row": `FindByID`
turns `sql.ErrNoRows` into a zero-valued user with a nil error, and
`FindAll` returns a nil error both on `sql.ErrNoRows` and on an empty
result set. -/
theorem repository_swallows_no_rows :
    FindByID (Except.error GoErr.sqlNoRows) = (some zeroUser, none) ∧
    FindAll (Except.error GoErr.sqlNoRows) = ([], none) ∧
    FindAll (Except.ok []) = ([], none) := by
  refine ⟨by decide, by decide, by decide⟩

/-- Claim C10: when the SQL execution and the rows-affected query both
succeed, `Update` and `Delete` return `ErrResourceNotFound` exactly when
zero rows were affected, and a nil error otherwise. -/
theorem update_delete_zero_rows_iff (res : SqlResult) (n : Int)
    (h : res.rowsAffected = Except.ok n) :
    (Update (Except.ok res) = some GoErr.resourceNotFound ↔ n = 0) ∧
    (Update (Except.ok res) = none ↔ ¬ n = 0) ∧
    (Delete (Except.ok res) = some GoErr.resourceNotFound ↔ n = 0) ∧
    (Delete (Except.ok res) = none ↔ ¬ n = 0) := by
  unfold Update Delete
  by_cases hn : n = 0 <;> simp [h, hn]

/-- Witness for C10: a result reporting zero affected rows makes both
methods return `ErrResourceNotFound`. -/
theorem update_delete_zero_rows_iff_witness :
    (Update (Except.ok { rowsAffected := Except.ok 0 }) = some GoErr.resourceNotFound ↔
      (0 : Int) = 0) ∧
    (Update (Except.ok { rowsAffected := Except.ok 0 }) = none ↔ ¬ (0 : Int) = 0) ∧
    (Delete (Except.ok { rowsAffected := Except.ok 0 }) = some GoErr.resourceNotFound ↔
      (0 : Int) = 0) ∧
    (Delete (Except.ok { rowsAffected := Except.ok 0 }) = none ↔ ¬ (0 : Int) = 0) :=
  update_delete_zero_rows_iff { rowsAffected := Except.ok 0 } 0 rfl

end Hexagony
